import Mathlib

/-!
Verification of the RegionBorderExperiment polygon pipeline

Shallow embedding of `area_self_intersection.py`: a linear pipeline
Reader → Transform Undoer → Polygon Closer → Structural Validator →
Self-Intersection Detector, driven by `main`.

Points are modelled as pairs of rationals (the program manipulates exact
small numeric literals; rational arithmetic reproduces them exactly).
Printed diagnostics are modelled by the inductive `Msg`, one constructor
per `print` statement in the source, carrying the dynamic data that the
corresponding Python format string interpolates.
-/

namespace RegionBorder

/-- A 2D point `(x, y)`, compared by exact value equality. -/
abbrev Point : Type := ℚ × ℚ

/-- A parsed Python literal value, as produced by `ast.literal_eval` on the
file content.  Only the shapes the pipeline can meet matter: numbers,
strings, lists and tuples. -/
inductive PyVal where
  | num (q : ℚ)
  | str (s : String)
  | list (elems : List PyVal)
  | tuple (elems : List PyVal)

/-- One printed line.  Each constructor stands for one `print` call in the
source, carrying the data its format string interpolates:
* `fileNotFound p`    — `Error: File not found - p`
* `parseFailure e`    — `Error: Failed to parse the file - e` (the text `e`
  of the underlying `SyntaxError`/`ValueError` is part of the message)
* `shapeError`        — `Error: The file must contain a list of (x, y) tuples.`
* `exitingReadErrors` — `Exiting due to errors in reading the file.`
* `tooFewPoints`      — `Error: A polygon must have at least 3 distinct points (with closure).`
* `duplicatePoints i p q` — `Error: Consecutive duplicate points at index i (p, q).`
* `exitingInvalid`    — `Exiting due to invalid polygon data.`
* `resultSimple`      — `Result: The polygon is simple (no self-intersections).`
* `resultComplex`     — `Result: The polygon is complex (has self-intersections).` -/
inductive Msg where
  | fileNotFound (path : String)
  | parseFailure (cause : String)
  | shapeError
  | exitingReadErrors
  | tooFewPoints
  | duplicatePoints (i : ℕ) (p q : Point)
  | exitingInvalid
  | resultSimple
  | resultComplex
deriving DecidableEq

/-- What happened when the file was opened and `ast.literal_eval` ran:
the file was missing (`FileNotFoundError`), the content failed to parse
(`SyntaxError`/`ValueError`, carrying the exception text), or a literal
value was produced. -/
inductive FileOutcome where
  | notFound
  | parseFail (cause : String)
  | parsed (v : PyVal)

/-- How the whole process ended: a graceful return from `main` (exit
status 0) having printed `printed`, or an uncaught exception after having
printed `printed`. -/
inductive ProcResult where
  | exitOk (printed : List Msg)
  | crash (printed : List Msg)
deriving DecidableEq

/-- The per-element test `isinstance(pt, (list, tuple)) and len(pt) == 2`. -/
def isPairShaped : PyVal → Bool
  | .list es => es.length == 2
  | .tuple es => es.length == 2
  | _ => false

/-- The conversion `tuple(pt)` on a value known to be a 2-element list or tuple. -/
def toPair : PyVal → Option (PyVal × PyVal)
  | .list [a, b] => some (a, b)
  | .tuple [a, b] => some (a, b)
  | _ => none

/-- The shape test of the reader:
`isinstance(points, list) and all(isinstance(pt, (list, tuple)) and len(pt) == 2 for pt in points)`. -/
def shapeOk : PyVal → Bool
  | .list pts => pts.all isPairShaped
  | _ => false

/-- The reader `read_coordinates_array_txt`: given the file path and the outcome of
reading and literal-evaluating the file, return the list of coordinate
pairs together with the printed diagnostics.  On every failure path the
function prints one message and returns the empty list; on success it
returns the pairs (whose elements are *not* checked to be numeric) and
prints nothing. -/
def read_coordinates_array_txt (file_path : String) (o : FileOutcome) :
    List (PyVal × PyVal) × List Msg :=
  match o with
  | .notFound => ([], [.fileNotFound file_path])
  | .parseFail cause => ([], [.parseFailure cause])
  | .parsed (.list pts) =>
      if pts.all isPairShaped then (pts.filterMap toPair, [])
      else ([], [.shapeError])
  | .parsed _ => ([], [.shapeError])

/-- The transform `undo_scenekit_transformation`: `[(-y, -x) for (x, y) in transformed_points]`
on numeric points. -/
def undo_scenekit_transformation (transformed_points : List Point) : List Point :=
  transformed_points.map fun p => (-p.2, -p.1)

/-- Python unary minus on a parsed literal: defined on numbers, a
`TypeError` (modelled as `none`) on anything else. -/
def pyNeg : PyVal → Option ℚ
  | .num q => some (-q)
  | _ => none

/-- One step of the comprehension in `undo_scenekit_transformation` as it
runs inside `main`, where the pair elements are raw parsed values: build
`(-y, -x)`, raising `TypeError` (`none`) if an element is not a number. -/
def undoPyPoint (pr : PyVal × PyVal) : Option Point := do
  let ny ← pyNeg pr.2
  let nx ← pyNeg pr.1
  return (ny, nx)

/-- The whole comprehension of `undo_scenekit_transformation` as it runs
inside `main` on raw parsed pairs: left to right, propagating the first
`TypeError`. -/
def undoPyList : List (PyVal × PyVal) → Option (List Point)
  | [] => some []
  | pr :: rest => do
      let p ← undoPyPoint pr
      let ps ← undoPyList rest
      return p :: ps

/-- Are both components of a parsed pair numbers?  Exactly the pairs on
which the transform stage does not raise `TypeError`. -/
def numericPair (pr : PyVal × PyVal) : Bool :=
  (pyNeg pr.1).isSome && (pyNeg pr.2).isSome

/-- The file outcomes on which the pipeline raises no exception: anything
except a parsed well-shaped list holding a pair with a non-numeric
element. -/
def crashFreeOutcome : FileOutcome → Bool
  | .parsed (.list pts) =>
      if pts.all isPairShaped then (pts.filterMap toPair).all numericPair else true
  | _ => true

/-- The closer `ensure_polygon_closed`: empty input is returned unchanged; otherwise,
if `points[0] != points[-1]`, the first point is appended. -/
def ensure_polygon_closed (points : List Point) : List Point :=
  match points with
  | [] => points
  | p0 :: _ => if points.getLast? ≠ some p0 then points ++ [p0] else points

/-- The scan `for i in range(len(points) - 1): if points[i] == points[i + 1]`:
the first index `i` with `points[i] == points[i+1]`, together with the two
equal values, or `none` if there is no consecutive duplicate. -/
def findConsecutiveDup : List Point → Option (ℕ × Point × Point)
  | p :: q :: rest =>
      if p = q then some (0, p, q)
      else (findConsecutiveDup (q :: rest)).map fun r => (r.1 + 1, r.2)
  | _ => none

/-- The validator `validate_polygon`: `False` with a `tooFewPoints` message when fewer
than 4 points; otherwise `False` with a `duplicatePoints` message at the
first consecutive duplicate, or `True` with no output. -/
def validate_polygon (points : List Point) : Bool × List Msg :=
  if points.length < 4 then (false, [.tooFewPoints])
  else
    match findConsecutiveDup points with
    | some (i, p, q) => (false, [.duplicatePoints i p q])
    | none => (true, [])

/-- The boundary edges: one segment per consecutive pair of the (closed)
point sequence. -/
def edgesOf : List Point → List (Point × Point)
  | p :: q :: rest => (p, q) :: edgesOf (q :: rest)
  | _ => []

/-- Cross product `(a - o) × (b - o)`: the orientation predicate. -/
def cross2 (o a b : Point) : ℚ :=
  (a.1 - o.1) * (b.2 - o.2) - (a.2 - o.2) * (b.1 - o.1)

/-- Given that `p`, `q`, `r` are colinear, does `q` lie on the segment
`p`–`r` (endpoints included)? -/
def onSeg (p q r : Point) : Bool :=
  decide (min p.1 r.1 ≤ q.1) && decide (q.1 ≤ max p.1 r.1) &&
  decide (min p.2 r.2 ≤ q.2) && decide (q.2 ≤ max p.2 r.2)

/-- Segment–segment intersection by orientation predicates: a proper
crossing (strictly opposite orientations on both sides), or an endpoint of
one segment lying on the other (touching counts as intersecting). -/
def segmentsIntersect (s1 s2 : Point × Point) : Bool :=
  let p1 := s1.1; let q1 := s1.2
  let p2 := s2.1; let q2 := s2.2
  let d1 := cross2 p2 q2 p1
  let d2 := cross2 p2 q2 q1
  let d3 := cross2 p1 q1 p2
  let d4 := cross2 p1 q1 q2
  (decide (d1 * d2 < 0) && decide (d3 * d4 < 0)) ||
  (decide (d1 = 0) && onSeg p2 p1 q2) ||
  (decide (d2 = 0) && onSeg p2 q1 q2) ||
  (decide (d3 = 0) && onSeg p1 p2 q1) ||
  (decide (d4 = 0) && onSeg p1 q2 q1)

/-- Do two consecutive edges, meeting at the shared vertex `v` (so the
edges are `a`–`v` and `v`–`b`), overlap colinearly beyond `v`?  They do
exactly when `a`, `v`, `b` are colinear and `a` and `b` leave `v` in the
same direction. -/
def adjacentOverlap (a v b : Point) : Bool :=
  decide (cross2 v a b = 0) &&
  decide (0 < (a.1 - v.1) * (b.1 - v.1) + (a.2 - v.2) * (b.2 - v.2))

/-- Modelled from the spec: the repository delegates the simple-polygon
test to the external library call `LineString(points).is_simple`, whose
code is not under `src/`; §4.5 of the design prescribes the replacement
algorithm embedded here.  For every unordered pair of edges `(i, j)` with
`i < j` that is not adjacent in the cyclic boundary (`j ≠ i + 1` and not
the wrap-around pair `(0, m-1)`, unless `m = 2`), the two segments must
not intersect at all; additionally no pair of cyclically consecutive
edges may overlap colinearly beyond the shared vertex.  Rational
arithmetic is exact, so the tolerance is zero. -/
def is_simple (points : List Point) : Bool :=
  let edges := edgesOf points
  let m := edges.length
  let nonAdjacentOk := (List.range m).all fun i =>
    (List.range m).all fun j =>
      if i < j && !(j == i + 1 || (i == 0 && j == m - 1 && m != 2)) then
        !segmentsIntersect (edges.getD i ((0, 0), (0, 0))) (edges.getD j ((0, 0), (0, 0)))
      else true
  let adjacentOk := (List.range m).all fun i =>
    let e := edges.getD i ((0, 0), (0, 0))
    let f := edges.getD ((i + 1) % m) ((0, 0), (0, 0))
    !adjacentOverlap e.1 e.2 f.2
  nonAdjacentOk && adjacentOk

/-- The detector `detect_self_intersections`: computes `is_simple`, prints the verdict,
and returns the boolean. -/
def detect_self_intersections (points : List Point) : Bool × List Msg :=
  let s := is_simple points
  (s, [if s then Msg.resultSimple else Msg.resultComplex])

/-- The driver `main`, past argument parsing: the pipeline as a function of the
file path and the file outcome.  A `TypeError` escaping the transform
stage is an uncaught exception, i.e. a `crash`. -/
def main_run (file_path : String) (o : FileOutcome) : ProcResult :=
  let r := read_coordinates_array_txt file_path o
  if r.1.isEmpty then .exitOk (r.2 ++ [.exitingReadErrors])
  else
    match undoPyList r.1 with
    | none => .crash r.2
    | some original =>
      let closed := ensure_polygon_closed original
      let v := validate_polygon closed
      if v.1 then .exitOk (r.2 ++ v.2 ++ (detect_self_intersections closed).2)
      else .exitOk (r.2 ++ v.2 ++ [.exitingInvalid])

/-- The convex quadrilateral fixture of the spec, already closed. -/
def convexQuad : List Point := [(0, 0), (4, 0), (4, 4), (0, 4), (0, 0)]

/-- The bowtie quadrilateral fixture of the spec, already closed. -/
def bowtieQuad : List Point := [(0, 0), (4, 4), (4, 0), (0, 4), (0, 0)]

/-! ## Helper lemmas -/

/-- Closing a non-empty sequence leaves the first point in place and makes
the last point equal to it. -/
theorem ensure_head_last (p0 : Point) (ps : List Point) :
    (ensure_polygon_closed (p0 :: ps)).head? = some p0 ∧
    (ensure_polygon_closed (p0 :: ps)).getLast? = some p0 := by
  by_cases hl : (p0 :: ps).getLast? = some p0
  · simp only [ensure_polygon_closed]
    rw [if_neg (not_not_intro hl)]
    exact ⟨rfl, hl⟩
  · simp only [ensure_polygon_closed]
    rw [if_pos hl]
    exact ⟨rfl, List.getLast?_concat _⟩

/-- Closing a sequence whose last element already equals its first is a
no-op. -/
theorem ensure_eq_of_closed (p0 : Point) (ps : List Point)
    (h : (p0 :: ps).getLast? = some p0) :
    ensure_polygon_closed (p0 :: ps) = p0 :: ps := by
  simp only [ensure_polygon_closed]
  rw [if_neg (not_not_intro h)]

/-! ## Claim theorems -/

/-- Claim C3: the Transform Undoer maps every point `(x, y)` to
`(-y, -x)`, and applying it twice to any point sequence returns the
original sequence. -/
theorem undo_involutive_and_pointwise (pts : List Point) :
    undo_scenekit_transformation (undo_scenekit_transformation pts) = pts ∧
    ∀ (i : ℕ) (x y : ℚ), pts[i]? = some (x, y) →
      (undo_scenekit_transformation pts)[i]? = some (-y, -x) := by
  constructor
  · simp only [undo_scenekit_transformation, List.map_map]
    have hid : ((fun p : Point => (-p.2, -p.1)) ∘ fun p : Point => (-p.2, -p.1)) = id := by
      funext p
      simp [Function.comp]
    rw [hid, List.map_id]
  · intro i x y h
    simp [undo_scenekit_transformation, List.getElem?_map, h]

/-- Witness for C3 at the point sequence `[(1, 2)]`. -/
theorem undo_involutive_and_pointwise_witness :
    undo_scenekit_transformation (undo_scenekit_transformation [((1:ℚ), (2:ℚ))]) =
      [((1:ℚ), (2:ℚ))] ∧
    (undo_scenekit_transformation [((1:ℚ), (2:ℚ))])[0]? = some ((-2:ℚ), (-1:ℚ)) :=
  ⟨(undo_involutive_and_pointwise _).1,
   (undo_involutive_and_pointwise [((1:ℚ), (2:ℚ))]).2 0 1 2 rfl⟩

/-- Claim C7: the Polygon Closer is idempotent. -/
theorem ensure_polygon_closed_idempotent (points : List Point) :
    ensure_polygon_closed (ensure_polygon_closed points) = ensure_polygon_closed points := by
  cases points with
  | nil => rfl
  | cons p0 ps =>
    obtain ⟨h1, h2⟩ := ensure_head_last p0 ps
    rcases hres : ensure_polygon_closed (p0 :: ps) with _ | ⟨q, qs⟩
    · rw [hres] at h1
      simp at h1
    · rw [hres] at h1 h2
      obtain rfl : q = p0 := by simpa using h1
      exact ensure_eq_of_closed q qs h2

/-- Claim C8: the Polygon Closer returns the empty sequence unchanged;
for a non-empty sequence it is the identity when the first and last
elements agree, and otherwise appends a copy of the first element; every
non-empty result starts and ends with the same point. -/
theorem ensure_polygon_closed_contract :
    ensure_polygon_closed [] = ([] : List Point) ∧
    ∀ (p0 : Point) (ps : List Point),
      ((p0 :: ps).getLast? = some p0 → ensure_polygon_closed (p0 :: ps) = p0 :: ps) ∧
      ((p0 :: ps).getLast? ≠ some p0 →
        ensure_polygon_closed (p0 :: ps) = (p0 :: ps) ++ [p0]) ∧
      (ensure_polygon_closed (p0 :: ps)).head? = some p0 ∧
      (ensure_polygon_closed (p0 :: ps)).getLast? = some p0 := by
  refine ⟨rfl, fun p0 ps => ⟨ensure_eq_of_closed p0 ps, fun h => ?_, ensure_head_last p0 ps⟩⟩
  simp only [ensure_polygon_closed]
  rw [if_pos h]

/-- Witness for C8: an open two-point sequence gets its first point
appended; an already closed sequence is returned unchanged. -/
theorem ensure_polygon_closed_contract_witness :
    ensure_polygon_closed [((0:ℚ), (0:ℚ)), ((1:ℚ), (2:ℚ))] =
      [((0:ℚ), (0:ℚ)), ((1:ℚ), (2:ℚ)), ((0:ℚ), (0:ℚ))] ∧
    ensure_polygon_closed [((0:ℚ), (0:ℚ)), ((1:ℚ), (2:ℚ)), ((0:ℚ), (0:ℚ))] =
      [((0:ℚ), (0:ℚ)), ((1:ℚ), (2:ℚ)), ((0:ℚ), (0:ℚ))] := by
  constructor
  · exact (ensure_polygon_closed_contract.2 (0, 0) [(1, 2)]).2.1 (by decide)
  · exact (ensure_polygon_closed_contract.2 (0, 0) [(1, 2), (0, 0)]).1 (by decide)

/-- Claim C9: a missing file prints the file-not-found message (naming the
path) and yields the empty sequence; a parse failure prints the
parse-failure message carrying the underlying cause text and yields the
empty sequence; in both cases `main` goes on to print its exiting notice
and returns normally rather than crashing. -/
theorem reader_failure_messages (fp cause : String) :
    read_coordinates_array_txt fp .notFound = ([], [Msg.fileNotFound fp]) ∧
    read_coordinates_array_txt fp (.parseFail cause) = ([], [Msg.parseFailure cause]) ∧
    main_run fp .notFound = .exitOk [Msg.fileNotFound fp, Msg.exitingReadErrors] ∧
    main_run fp (.parseFail cause) =
      .exitOk [Msg.parseFailure cause, Msg.exitingReadErrors] :=
  ⟨rfl, rfl, rfl, rfl⟩

/-- Claim C10: the literal `[]` parses and passes the shape check with no
diagnostic, yet the driver treats the resulting empty sequence exactly
like a read failure: it prints only the exiting notice and stops before
any later stage runs. -/
theorem empty_list_stops_pipeline (fp : String) :
    read_coordinates_array_txt fp (.parsed (.list [])) = ([], []) ∧
    main_run fp (.parsed (.list [])) = .exitOk [Msg.exitingReadErrors] :=
  ⟨rfl, rfl⟩

/-- Claim C1: the Self-Intersection Detector classifies the convex
quadrilateral `[(0,0),(4,0),(4,4),(0,4),(0,0)]` as simple and the bowtie
quadrilateral `[(0,0),(4,4),(4,0),(0,4),(0,0)]` as complex. -/
theorem detect_quadrilateral_fixtures :
    detect_self_intersections convexQuad = (true, [Msg.resultSimple]) ∧
    detect_self_intersections bowtieQuad = (false, [Msg.resultComplex]) := by
  constructor
  · with_unfolding_all rfl
  · with_unfolding_all rfl

/-- The duplicate scan reports nothing exactly when no two adjacent
points are equal. -/
theorem findConsecutiveDup_eq_none_iff (l : List Point) :
    findConsecutiveDup l = none ↔
      ∀ (i : ℕ) (a b : Point), l[i]? = some a → l[i+1]? = some b → a ≠ b := by
  induction l with
  | nil => simp [findConsecutiveDup]
  | cons p tl ih =>
    cases tl with
    | nil =>
      simp only [findConsecutiveDup, true_iff]
      intro i a b _ hb
      rw [List.getElem?_cons_succ] at hb
      simp at hb
    | cons q rest =>
      by_cases hpq : p = q
      · rw [findConsecutiveDup, if_pos hpq]
        constructor
        · intro hco
          cases hco
        · intro hR
          exact absurd hpq (hR 0 p q (by simp) (by simp))
      · rw [findConsecutiveDup, if_neg hpq, Option.map_eq_none', ih]
        constructor
        · intro hR i a b ha hb
          rcases i with _ | j
          · simp only [List.getElem?_cons_zero, Option.some.injEq] at ha
            rw [List.getElem?_cons_succ, List.getElem?_cons_zero] at hb
            simp only [Option.some.injEq] at hb
            intro hab
            rw [← ha, ← hb] at hab
            exact hpq hab
          · rw [List.getElem?_cons_succ] at ha hb
            exact hR j a b ha hb
        · intro hR i a b ha hb
          refine hR (i + 1) a b ?_ ?_
          · rw [List.getElem?_cons_succ]
            exact ha
          · rw [List.getElem?_cons_succ]
            exact hb

/-- When the duplicate scan reports `(i, a, b)`, the pair really sits at
index `i`, the two values are equal, and `i` is the smallest index of any
adjacent duplicate. -/
theorem findConsecutiveDup_eq_some_spec (l : List Point) (i : ℕ) (a b : Point)
    (h : findConsecutiveDup l = some (i, a, b)) :
    l[i]? = some a ∧ l[i+1]? = some b ∧ a = b ∧
      ∀ (j : ℕ) (c d : Point), j < i → l[j]? = some c → l[j+1]? = some d → c ≠ d := by
  induction l generalizing i a b with
  | nil => simp [findConsecutiveDup] at h
  | cons p tl ih =>
    cases tl with
    | nil => simp [findConsecutiveDup] at h
    | cons q rest =>
      by_cases hpq : p = q
      · rw [findConsecutiveDup, if_pos hpq, Option.some.injEq] at h
        obtain ⟨rfl, rfl, rfl⟩ : 0 = i ∧ p = a ∧ q = b := by
          simpa [Prod.ext_iff] using h
        refine ⟨rfl, ?_, hpq, ?_⟩
        · rw [List.getElem?_cons_succ, List.getElem?_cons_zero]
        · intro j c d hj
          exact absurd hj (Nat.not_lt_zero j)
      · rw [findConsecutiveDup, if_neg hpq, Option.map_eq_some'] at h
        obtain ⟨⟨i0, a0, b0⟩, hr, hg⟩ := h
        obtain ⟨rfl, rfl, rfl⟩ : i0 + 1 = i ∧ a0 = a ∧ b0 = b := by
          simpa [Prod.ext_iff] using hg
        obtain ⟨ha, hb, heq, hmin⟩ := ih i0 a0 b0 hr
        refine ⟨?_, ?_, heq, ?_⟩
        · rw [List.getElem?_cons_succ]
          exact ha
        · rw [List.getElem?_cons_succ]
          exact hb
        · intro j c d hj hc hd
          rcases j with _ | k
          · simp only [List.getElem?_cons_zero, Option.some.injEq] at hc
            rw [List.getElem?_cons_succ, List.getElem?_cons_zero] at hd
            simp only [Option.some.injEq] at hd
            intro hcd
            rw [← hc, ← hd] at hcd
            exact hpq hcd
          · rw [List.getElem?_cons_succ] at hc hd
            exact hmin k c d (Nat.lt_of_succ_lt_succ hj) hc hd

/-- Claim C5: any sequence of fewer than 4 points is rejected with the
too-few-points diagnostic, and that rule fires before the duplicate scan:
the result is the same whether or not the short sequence also holds
consecutive duplicates. -/
theorem validate_rejects_short (points : List Point) (h : points.length < 4) :
    validate_polygon points = (false, [Msg.tooFewPoints]) := by
  simp [validate_polygon, h]

/-- Witness for C5: a three-point sequence that even contains a
consecutive duplicate is still reported as too few points. -/
theorem validate_rejects_short_witness :
    validate_polygon [((0:ℚ), (0:ℚ)), ((0:ℚ), (0:ℚ)), ((1:ℚ), (1:ℚ))] =
      (false, [Msg.tooFewPoints]) :=
  validate_rejects_short _ (by decide)

/-- Claim C6: for sequences of length at least 4, validation fails exactly
when some adjacent pair of points is equal; on failure the validator
returns `false` and prints exactly one duplicate-points diagnostic,
carrying the smallest offending index and the two (equal) point values;
on success it returns `true` printing nothing. -/
theorem validate_duplicate_rule (points : List Point) (h : 4 ≤ points.length) :
    ((validate_polygon points).1 = false ↔
      ∃ (i : ℕ) (a : Point), points[i]? = some a ∧ points[i+1]? = some a) ∧
    ((validate_polygon points).1 = true → validate_polygon points = (true, [])) ∧
    ((validate_polygon points).1 = false →
      ∃ (i : ℕ) (a b : Point),
        validate_polygon points = (false, [Msg.duplicatePoints i a b]) ∧
        points[i]? = some a ∧ points[i+1]? = some b ∧ a = b ∧
          ∀ (j : ℕ) (c d : Point), j < i → points[j]? = some c →
            points[j+1]? = some d → c ≠ d) := by
  have hlen : ¬points.length < 4 := not_lt.mpr h
  simp only [validate_polygon, if_neg hlen]
  rcases hfd : findConsecutiveDup points with _ | ⟨i0, a0, b0⟩
  · refine ⟨⟨fun hff => absurd hff (by decide), ?_⟩, fun _ => rfl, ?_⟩
    · rintro ⟨i, a, ha, hb⟩
      exact ((findConsecutiveDup_eq_none_iff points).mp hfd i a a ha hb rfl).elim
    · intro hff
      simp at hff
  · obtain ⟨ha, hb, heq, hmin⟩ := findConsecutiveDup_eq_some_spec points i0 a0 b0 hfd
    refine ⟨⟨fun _ => ⟨i0, a0, ha, ?_⟩, fun _ => rfl⟩, fun hft => by simp at hft, ?_⟩
    · rw [heq]
      exact hb
    · intro _
      exact ⟨i0, a0, b0, rfl, ha, hb, heq, hmin⟩

/-- Witness for C6 at a five-point sequence with its first duplicate at
index 1. -/
theorem validate_duplicate_rule_witness :
    (validate_polygon [((0:ℚ), (0:ℚ)), ((1:ℚ), (1:ℚ)), ((1:ℚ), (1:ℚ)),
      ((2:ℚ), (2:ℚ)), ((0:ℚ), (0:ℚ))]).1 = false :=
  (validate_duplicate_rule _ (by decide)).1.mpr ⟨1, (1, 1), by decide, by decide⟩

/-- The transform stage raises no `TypeError` on a list of numeric
pairs. -/
theorem undoPyList_isSome (l : List (PyVal × PyVal))
    (h : l.all numericPair = true) : ∃ ps, undoPyList l = some ps := by
  induction l with
  | nil => exact ⟨[], rfl⟩
  | cons pr rest ih =>
    rw [List.all_cons, Bool.and_eq_true] at h
    obtain ⟨h1, h2⟩ := h
    obtain ⟨ps, hps⟩ := ih h2
    rw [numericPair, Bool.and_eq_true, Option.isSome_iff_exists,
      Option.isSome_iff_exists] at h1
    obtain ⟨⟨nx, hnx⟩, ny, hny⟩ := h1
    refine ⟨(ny, nx) :: ps, ?_⟩
    simp [undoPyList, undoPyPoint, hnx, hny, hps]

/-- Claim C2 counterexample: the parsed value `[("a", "b")]` is a list of
2-element pairs, yet the run ends in an uncaught `TypeError` raised by the
transform stage, not in a graceful exit. -/
theorem string_pair_crashes :
    shapeOk (.list [.tuple [.str "a", .str "b"]]) = true ∧
    main_run "points.txt" (.parsed (.list [.tuple [.str "a", .str "b"]])) =
      .crash [] :=
  ⟨rfl, rfl⟩

/-- Claim C2 (amended): the process terminates gracefully on every file
outcome except a well-shaped list containing a pair with a non-numeric
element — i.e. on a missing file, a parse failure, a badly shaped value,
or a list of 2-element pairs of numbers; a non-numeric pair element
instead raises an uncaught `TypeError` in the transform stage. -/
theorem main_graceful_on_crash_free (fp : String) (o : FileOutcome)
    (h : crashFreeOutcome o = true) :
    ∃ printed, main_run fp o = .exitOk printed := by
  cases o with
  | notFound => exact ⟨_, rfl⟩
  | parseFail cause => exact ⟨_, rfl⟩
  | parsed v =>
    cases v with
    | num q => exact ⟨_, rfl⟩
    | str s => exact ⟨_, rfl⟩
    | tuple es => exact ⟨_, rfl⟩
    | list pts =>
      by_cases hall : pts.all isPairShaped = true
      · have hr : read_coordinates_array_txt fp (.parsed (.list pts)) =
            (pts.filterMap toPair, []) := by
          simp [read_coordinates_array_txt, hall]
        have hnum : (pts.filterMap toPair).all numericPair = true := by
          simpa [crashFreeOutcome, hall] using h
        simp only [main_run, hr]
        by_cases hemp : (pts.filterMap toPair).isEmpty = true
        · exact ⟨_, by rw [if_pos hemp]⟩
        · rw [if_neg hemp]
          obtain ⟨ps, hps⟩ := undoPyList_isSome _ hnum
          rw [hps]
          dsimp only
          by_cases hok : (validate_polygon (ensure_polygon_closed ps)).1 = true
          · exact ⟨_, by rw [if_pos hok]⟩
          · exact ⟨_, by rw [if_neg hok]⟩
      · have hr : read_coordinates_array_txt fp (.parsed (.list pts)) =
            ([], [Msg.shapeError]) := by
          simp [read_coordinates_array_txt, hall]
        simp only [main_run, hr]
        exact ⟨_, rfl⟩

/-- Witness for the amended C2: a full numeric run of the pipeline exits
gracefully. -/
theorem main_graceful_on_crash_free_witness :
    ∃ printed, main_run "points.txt"
      (.parsed (.list [.tuple [.num 0, .num 0], .tuple [.num 4, .num 0],
        .tuple [.num 4, .num 4], .tuple [.num 0, .num 4],
        .tuple [.num 0, .num 0]])) = .exitOk printed :=
  main_graceful_on_crash_free "points.txt" _ rfl

/-- Claim C4 counterexample: a list of 2-element pairs of strings is not a
list of numeric pairs, yet the reader accepts it: it returns the pair list
unchanged and prints nothing, instead of a shape error and the empty
sequence. -/
theorem string_pairs_pass_shape_check :
    read_coordinates_array_txt "points.txt"
      (.parsed (.list [.tuple [.str "a", .str "b"]])) =
      ([(.str "a", .str "b")], []) :=
  rfl

/-- Claim C4 (amended): the reader prints the shape-validation error and
returns the empty sequence exactly when the parsed value is not a list of
2-element lists/tuples; whether the pair elements are numbers is never
checked. -/
theorem reader_shape_validation (fp : String) (v : PyVal) :
    (shapeOk v = false →
      read_coordinates_array_txt fp (.parsed v) = ([], [Msg.shapeError])) ∧
    (shapeOk v = true → (read_coordinates_array_txt fp (.parsed v)).2 = []) := by
  cases v with
  | num q => exact ⟨fun _ => rfl, fun hs => by simp [shapeOk] at hs⟩
  | str s => exact ⟨fun _ => rfl, fun hs => by simp [shapeOk] at hs⟩
  | tuple es => exact ⟨fun _ => rfl, fun hs => by simp [shapeOk] at hs⟩
  | list pts =>
    by_cases hall : pts.all isPairShaped = true
    · refine ⟨fun hs => ?_, fun _ => ?_⟩
      · simp only [shapeOk] at hs
        rw [hall] at hs
        cases hs
      · simp [read_coordinates_array_txt, hall]
    · refine ⟨fun _ => ?_, fun hs => ?_⟩
      · simp [read_coordinates_array_txt, hall]
      · simp only [shapeOk] at hs
        exact absurd hs hall

/-- Witness for the amended C4: a bare number draws the shape error; a
singleton list of one numeric pair passes silently. -/
theorem reader_shape_validation_witness :
    read_coordinates_array_txt "points.txt" (.parsed (.num 7)) =
      ([], [Msg.shapeError]) ∧
    (read_coordinates_array_txt "points.txt"
      (.parsed (.list [.tuple [.num 1, .num 2]]))).2 = [] :=
  ⟨(reader_shape_validation "points.txt" (.num 7)).1 rfl,
   (reader_shape_validation "points.txt" (.list [.tuple [.num 1, .num 2]])).2 rfl⟩

end RegionBorder
